import Mathlib

/-!
Shallow embedding of the OpenVehicleDiag diagnostic-session core:

* `KWP2000DiagSession` and its `update` / `subscription` / drop handler,
  from `app_rust/src/windows/diag_session/kwp2000_session.rs`;
* the `connect_device` driver-singleton entry point, from `app/src/lib.rs`.

The protocol server (`KWP2000ECU`) and the log view are external to the
session file; they are modelled as a record of the observable results the
session code reads from them during one update, and an append-only list of
typed log lines.  Side effects of interest (releasing the diagnostic
channel, sending a command) are returned as an explicit effect list.
-/

namespace OpenVehicleDiag

/-- Log levels of the log view (`LogType` in `log_view`). -/
inductive LogType where
  | info
  | warn
  | error
  deriving DecidableEq, Repr

/-- One stored diagnostic trouble code, as the session reads it
(`x.error` is the display string). -/
structure ECUError where
  error : String
  deriving DecidableEq, Repr

/-- Result type mirroring Rust `Result<T, ProtocolError>`, with the error
collapsed to its `get_text()` rendering, which is all the session reads. -/
inductive KwpResult (α : Type) where
  | ok (val : α)
  | err (text : String)
  deriving DecidableEq, Repr

/-- The KWP2000 protocol server as observed by the session during one
update: the value each queried method returns.  The server's internals are
outside this file's source. -/
structure KWP2000ECU where
  is_in_diag_session : Bool
  get_last_error : Option String
  clear_errors : KwpResult Unit
  read_errors : KwpResult (List ECUError)
  run_command : KwpResult (List Nat)
  deriving DecidableEq, Repr

/-- Messages of the session (`KWP2000DiagSessionMsg`).  `PollServer`'s
`Instant` argument is never inspected by `update`, so it is dropped. -/
inductive KWP2000DiagSessionMsg where
  | ConnectECU
  | DisconnectECU
  | Back
  | PollServer
  | LoadErrorDefinition
  | ClearLogs
  | ClearErrors
  | ReadCodes
  | SendPayload
  | EnterPayload (s : String)
  deriving DecidableEq, Repr

/-- Observable side effects of one `update` call: a call to
`exit_diag_session` on the held server, or a `run_command(sid, payload)`
request. -/
inductive Effect where
  | exitDiagSession
  | runCommand (sid : Nat) (payload : List Nat)
  deriving DecidableEq, Repr

/-- The session state: the fields of `KWP2000DiagSession` the update logic
reads or writes (button widget states carry no data and are omitted).
`home_enabled` models the global `window::enable_home`/`disable_home`
flag the handlers toggle. -/
structure KWP2000DiagSession where
  can_clear_codes : Bool
  diag_server : Option KWP2000ECU
  payload_string : String
  can_send : Bool
  logview : List (LogType × String)
  home_enabled : Bool
  deriving DecidableEq, Repr

/-- Environment of one update call: the result
`KWP2000ECU::start_diag_session` would return if invoked (the started
server, or the error's `get_text()`). -/
structure Env where
  start_result : KwpResult KWP2000ECU
  deriving DecidableEq, Repr

/-- `logview.add_msg`: append one typed line. -/
def addMsg (lv : List (LogType × String)) (m : String) (t : LogType) :
    List (LogType × String) :=
  lv ++ [(t, m)]

/-- `logview.add_log`: append a request/response pair of lines. -/
def addLog (lv : List (LogType × String)) (l1 l2 : String) (t : LogType) :
    List (LogType × String) :=
  lv ++ [(t, l1), (t, l2)]

/-- Value of one hex digit character, or `none` (`hex` crate digit test). -/
def hexDigitVal (c : Char) : Option Nat :=
  if '0' ≤ c ∧ c ≤ '9' then some (c.toNat - '0'.toNat)
  else if 'a' ≤ c ∧ c ≤ 'f' then some (c.toNat - 'a'.toNat + 10)
  else if 'A' ≤ c ∧ c ≤ 'F' then some (c.toNat - 'A'.toNat + 10)
  else none

/-- `hex::decode` on a character list: two hex digits per byte; odd length
or a non-hex character fails. -/
def hexDecodeChars : List Char → Option (List Nat)
  | [] => some []
  | [_] => none
  | hi :: lo :: rest =>
    match hexDigitVal hi, hexDigitVal lo, hexDecodeChars rest with
    | some h, some l, some r => some ((h * 16 + l) :: r)
    | _, _, _ => none

/-- `hex::decode` on a string. -/
def hexDecode (s : String) : Option (List Nat) :=
  hexDecodeChars s.data

/-- Rendering of a byte list for the log (`{:02X?}` in the source; the
exact hex formatting is abstracted to `toString`, no claim depends on it). -/
def fmtBytes (r : List Nat) : String :=
  toString r

/-- `KWP2000DiagSession::update`, returning the new session state and the
list of side effects performed on the held server. -/
def update (st : KWP2000DiagSession) (env : Env) (msg : KWP2000DiagSessionMsg) :
    KWP2000DiagSession × List Effect :=
  match msg with
  | .ConnectECU =>
    match env.start_result with
    | .ok server =>
      ({ st with home_enabled := false,
                 diag_server := some server,
                 logview := addMsg st.logview "Connection to ECU established" .info }, [])
    | .err e =>
      let lv := addMsg st.logview ("Error connecting to ECU (" ++ e ++ ")") .info
      ({ st with logview := lv }, [])
  | .DisconnectECU =>
    ({ st with logview := addMsg st.logview "Connection to ECU terminated" .info,
               diag_server := none,
               home_enabled := true },
     if st.diag_server.isSome then [.exitDiagSession] else [])
  | .PollServer =>
    match st.diag_server with
    | some server =>
      if server.is_in_diag_session then (st, [])
      else
        let lv1 := addMsg st.logview "Connection to ECU closed unexpectedly" .info
        let lv2 := match server.get_last_error with
          | some desc => addMsg lv1 ("--> " ++ desc) .info
          | none => lv1
        ({ st with logview := lv2, diag_server := none, home_enabled := true },
         [.exitDiagSession])
    | none => (st, [])
  | .ClearLogs => ({ st with logview := [] }, [])
  | .ClearErrors =>
    match st.diag_server with
    | some s =>
      match s.clear_errors with
      | .err e =>
        let lv := addMsg st.logview ("Error clearing ECU errors: " ++ e) .error
        ({ st with logview := lv }, [])
      | .ok _ =>
        let lv := addMsg st.logview "ECU Errors cleared successfully" .error
        ({ st with logview := lv }, [])
    | none => (st, [])
  | .ReadCodes =>
    let st1 := { st with can_clear_codes := false }
    match st1.diag_server with
    | some s =>
      match s.read_errors with
      | .err e =>
        let lv := addMsg st1.logview ("Error reading ECU errors: " ++ e) .error
        ({ st1 with logview := lv }, [])
      | .ok errors =>
        if errors.isEmpty then
          ({ st1 with logview := addMsg st1.logview "No ECU Errors found" .info }, [])
        else
          let n := errors.length
          let lv1 := addMsg st1.logview ("Found " ++ toString n ++ " errors") .warn
          let lv2 := errors.foldl (fun acc x => addMsg acc x.error .warn) lv1
          ({ st1 with logview := lv2, can_clear_codes := true }, [])
    | none => (st1, [])
  | .EnterPayload s =>
    let st1 := { st with payload_string := s }
    if s.isEmpty then ({ st1 with can_send := false }, [])
    else if (hexDecode s).isSome ∧ 4 ≤ s.length then ({ st1 with can_send := true }, [])
    else (st1, [])
  | .SendPayload =>
    match hexDecode st.payload_string with
    | some r =>
      if 2 ≤ r.length then
        match st.diag_server with
        | some server =>
          match r with
          | a :: rest =>
            let lv := match server.run_command with
              | .ok res =>
                addLog st.logview ("Req:  " ++ fmtBytes (a :: rest))
                  ("Resp: " ++ fmtBytes res) .info
              | .err e =>
                addLog st.logview ("Req:  " ++ fmtBytes (a :: rest))
                  ("Exec error: " ++ e) .error
            ({ st with logview := lv }, [.runCommand a rest])
          | [] => (st, [])
        | none => (st, [])
      else (st, [])
    | none => (st, [])
  | .Back => (st, [])
  | .LoadErrorDefinition => (st, [])

/-- The subscription a session requests from the runtime: a periodic
`PollServer` tick at a fixed interval in milliseconds, or none. -/
inductive Sub where
  | every (ms : Nat)
  | none
  deriving DecidableEq, Repr

/-- `KWP2000DiagSession::subscription`. -/
def subscription (st : KWP2000DiagSession) : Sub :=
  if st.diag_server.isSome then Sub.every 250 else Sub.none

/-- `impl Drop for KWP2000DiagSession`: the effects the drop handler
performs on the held server. -/
def dropSession (st : KWP2000DiagSession) : List Effect :=
  match st.diag_server with
  | some _ => [Effect.exitDiagSession]
  | none => []

/-- Number of `exit_diag_session` calls in an effect list. -/
def countExit : List Effect → Nat
  | [] => 0
  | .exitDiagSession :: rest => countExit rest + 1
  | .runCommand _ _ :: rest => countExit rest

/-- The loaded passthrough driver, observed through the result its
`open()` call would return (a device id, or failure). -/
structure PassthruDrv where
  open_result : Option Nat
  deriving DecidableEq, Repr

/-- The value `connect_device` serialises back to the caller. -/
inductive ConnectResult where
  | device (dev_id : Nat)
  | loadErr (err : String)
  deriving DecidableEq, Repr

/-- `connect_device` from `app/src/lib.rs`: `driver` is the current
content of the global `DRIVER` slot, `load_result` what
`PassthruDrv::load_lib` would return.  Returns the new slot content and
the serialised reply. -/
def connect_device (driver : Option PassthruDrv)
    (load_result : KwpResult PassthruDrv) :
    Option PassthruDrv × ConnectResult :=
  if driver.isSome then (driver, .loadErr "Driver in use!")
  else
    match load_result with
    | .err x => (none, .loadErr x)
    | .ok d =>
      match d.open_result with
      | some idx => (some d, .device idx)
      | none => (some d, .loadErr "ERR_FAILED")

/-! Concrete fixtures used by witness theorems. -/

/-- A healthy connected server: in session, no error, empty DTC list. -/
def ecuLive : KWP2000ECU :=
  { is_in_diag_session := true, get_last_error := none,
    clear_errors := .ok (), read_errors := .ok [], run_command := .ok [] }

/-- A server whose keep-alive has failed, carrying a last-error text. -/
def ecuDead : KWP2000ECU :=
  { ecuLive with is_in_diag_session := false, get_last_error := some "ECU Timeout" }

/-- The state `KWP2000DiagSession::new` produces. -/
def initSession : KWP2000DiagSession :=
  { can_clear_codes := false, diag_server := none, payload_string := "",
    can_send := false, logview := [], home_enabled := true }

/-- A session holding a live server. -/
def sessionActive : KWP2000DiagSession :=
  { initSession with diag_server := some ecuLive }

/-- A session holding a server whose keep-alive has failed. -/
def sessionDead : KWP2000DiagSession :=
  { initSession with diag_server := some ecuDead }

/-- An environment where starting the diagnostic session succeeds. -/
def envOk : Env := { start_result := .ok ecuLive }

/-- A driver whose `open()` succeeds with device id 0. -/
def drv0 : PassthruDrv := { open_result := some 0 }

/-- C1: a `ConnectECU` update on a session with no diagnostic server either
succeeds and stores the started server (Active), or fails and leaves
`diag_server` as `none` (Closed), retaining no session object. -/
theorem connectECU_start (st : KWP2000DiagSession) (env : Env)
    (h : st.diag_server = none) :
    (∀ server, env.start_result = KwpResult.ok server →
      (update st env .ConnectECU).1.diag_server = some server) ∧
    (∀ e, env.start_result = KwpResult.err e →
      (update st env .ConnectECU).1.diag_server = none) := by
  constructor
  · intro server hs
    simp [update, hs]
  · intro e hs
    simp [update, hs, h]

/-- Witness for C1: from the initial session, a successful start stores the
started server. -/
theorem connectECU_start_witness :
    initSession.diag_server = none ∧
    (update initSession envOk .ConnectECU).1.diag_server = some ecuLive :=
  ⟨rfl, (connectECU_start initSession envOk rfl).1 ecuLive rfl⟩

/-- C2: dropping a session releases the server exactly when one is held
(one `exit_diag_session` call if `diag_server` is `some`, none if `none`),
and a `DisconnectECU` followed by the drop handler performs exactly one
release call in total when a server was held, never two. -/
theorem drop_releases_once (st : KWP2000DiagSession) (env : Env) :
    (st.diag_server.isSome = true → dropSession st = [Effect.exitDiagSession]) ∧
    (st.diag_server = none → dropSession st = []) ∧
    countExit (update st env .DisconnectECU).2
      + countExit (dropSession (update st env .DisconnectECU).1)
      = (if st.diag_server.isSome then 1 else 0) := by
  refine ⟨?_, ?_, ?_⟩
  · intro h
    cases hd : st.diag_server with
    | some s => simp [dropSession, hd]
    | none => rw [hd] at h; simp at h
  · intro h
    simp [dropSession, h]
  · cases hd : st.diag_server <;> simp [update, dropSession, countExit, hd]

/-- Witness for C2: an active session disconnected and then dropped
releases the channel exactly once. -/
theorem drop_releases_once_witness :
    dropSession sessionActive = [Effect.exitDiagSession] ∧
    countExit (update sessionActive envOk .DisconnectECU).2
      + countExit (dropSession (update sessionActive envOk .DisconnectECU).1) = 1 := by
  have h := drop_releases_once sessionActive envOk
  exact ⟨h.1 rfl, h.2.2.trans rfl⟩

/-- C3: a `PollServer` tick on a session whose server reports itself out of
the diagnostic session closes the session: one `exit_diag_session` call,
`diag_server` becomes `none`, and the server's last-error text, when
present, appears in the log. -/
theorem pollServer_failure_closes (st : KWP2000DiagSession) (env : Env)
    (server : KWP2000ECU)
    (h : st.diag_server = some server)
    (hs : server.is_in_diag_session = false) :
    (update st env .PollServer).1.diag_server = none ∧
    countExit (update st env .PollServer).2 = 1 ∧
    (∀ desc, server.get_last_error = some desc →
      (LogType.info, "--> " ++ desc) ∈ (update st env .PollServer).1.logview) := by
  refine ⟨?_, ?_, ?_⟩
  · simp [update, h, hs]
  · simp [update, h, hs, countExit]
  · intro desc hd
    simp [update, h, hs, hd, addMsg]

/-- Witness for C3: a session whose server's keep-alive failed closes on
the next poll and logs the last-error text. -/
theorem pollServer_failure_closes_witness :
    (update sessionDead envOk .PollServer).1.diag_server = none ∧
    countExit (update sessionDead envOk .PollServer).2 = 1 ∧
    (LogType.info, "--> " ++ "ECU Timeout") ∈
      (update sessionDead envOk .PollServer).1.logview := by
  have h := pollServer_failure_closes sessionDead envOk ecuDead rfl rfl
  exact ⟨h.1, h.2.1, h.2.2 "ECU Timeout" rfl⟩

/-- C4: `DisconnectECU` is idempotent: from any state it leaves
`diag_server = none`, and a second application again yields `none` while
performing no `exit_diag_session` call (and no fault: `update` is total). -/
theorem disconnect_idempotent (st : KWP2000DiagSession) (env1 env2 : Env) :
    (update st env1 .DisconnectECU).1.diag_server = none ∧
    (update (update st env1 .DisconnectECU).1 env2 .DisconnectECU).1.diag_server
      = none ∧
    (update (update st env1 .DisconnectECU).1 env2 .DisconnectECU).2 = [] := by
  refine ⟨?_, ?_, ?_⟩ <;> simp [update]

/-- C5 fails as stated: the gate is not a function of the current payload
alone.  After entering `"0100"` (gate opens) and then `"01"` (decodes to
the single byte `[1]`), `can_send` is still `true`, because the handler
never resets the flag on a nonempty string that fails validation. -/
theorem enterPayload_gate_counterexample :
    (update (update initSession envOk (.EnterPayload "0100")).1 envOk
        (.EnterPayload "01")).1.payload_string = "01" ∧
    hexDecode "01" = some [1] ∧
    (update (update initSession envOk (.EnterPayload "0100")).1 envOk
        (.EnterPayload "01")).1.can_send = true := by
  refine ⟨by decide, by decide, by decide⟩

/-- C5 amended: `EnterPayload s` stores `s` as the payload string and
updates the gate as the code does: `can_send` becomes `false` when `s` is
empty, `true` when `s` is valid hex of length at least 4 (at least 2
decoded bytes), and otherwise keeps its previous value. -/
theorem enterPayload_gate (st : KWP2000DiagSession) (env : Env) (s : String) :
    (update st env (.EnterPayload s)).1.payload_string = s ∧
    (update st env (.EnterPayload s)).1.can_send =
      (if s.isEmpty then false
       else if (hexDecode s).isSome ∧ 4 ≤ s.length then true
       else st.can_send) := by
  constructor
  · simp only [update]
    split
    · rfl
    · split <;> rfl
  · simp only [update]
    split
    · simp_all
    · split <;> simp_all

/-- C6: the driver slot is a process-wide singleton: `connect_device` with
a loaded driver returns `Driver in use!` and leaves the slot unchanged;
with an empty slot, a failed `load_lib` leaves the slot empty, and only a
successful `load_lib` populates it (with the loaded driver). -/
theorem connect_device_singleton (driver : Option PassthruDrv)
    (lr : KwpResult PassthruDrv) :
    (driver.isSome = true →
      connect_device driver lr = (driver, ConnectResult.loadErr "Driver in use!")) ∧
    (driver = none → ∀ e, lr = KwpResult.err e →
      connect_device driver lr = (none, ConnectResult.loadErr e)) ∧
    (driver = none → ∀ d, lr = KwpResult.ok d →
      (connect_device driver lr).1 = some d) := by
  refine ⟨?_, ?_, ?_⟩
  · intro h
    simp [connect_device, h]
  · intro h e he
    simp [connect_device, h, he]
  · intro h d hd
    cases hopen : d.open_result <;> simp [connect_device, h, hd, hopen]

/-- Witness for C6: a second load attempt is rejected without replacing
the loaded driver, and a load into an empty slot populates it. -/
theorem connect_device_singleton_witness :
    connect_device (some drv0) (KwpResult.ok drv0)
      = (some drv0, ConnectResult.loadErr "Driver in use!") ∧
    (connect_device none (KwpResult.ok drv0)).1 = some drv0 :=
  ⟨(connect_device_singleton (some drv0) (.ok drv0)).1 rfl,
   (connect_device_singleton none (.ok drv0)).2.2 rfl drv0 rfl⟩

/-- C7: `SendPayload` issues `run_command` only when the payload string
hex-decodes to at least two bytes, passing the first byte as service id
and the rest as payload; when decode fails or yields fewer than two bytes,
no command is sent. -/
theorem sendPayload_guard (st : KWP2000DiagSession) (env : Env) :
    (∀ sid payload, Effect.runCommand sid payload ∈ (update st env .SendPayload).2 →
      hexDecode st.payload_string = some (sid :: payload) ∧
      2 ≤ (sid :: payload).length) ∧
    ((hexDecode st.payload_string = none ∨
      ∃ r, hexDecode st.payload_string = some r ∧ r.length < 2) →
      ∀ sid payload, Effect.runCommand sid payload ∉ (update st env .SendPayload).2) := by
  have main : ∀ sid payload,
      Effect.runCommand sid payload ∈ (update st env .SendPayload).2 →
      hexDecode st.payload_string = some (sid :: payload) ∧
      2 ≤ (sid :: payload).length := by
    intro sid payload hmem
    rcases hdec : hexDecode st.payload_string with _ | (_ | ⟨a, _ | ⟨b, rest⟩⟩)
    · simp [update, hdec] at hmem
    · simp [update, hdec] at hmem
    · simp [update, hdec] at hmem
    · rcases hserv : st.diag_server with _ | server
      · simp [update, hdec, hserv] at hmem
      · simp [update, hdec, hserv] at hmem
        rcases hmem with ⟨rfl, rfl⟩
        exact ⟨rfl, by simp⟩
  refine ⟨main, ?_⟩
  rintro (hnone | ⟨r, hr, hlt⟩) sid payload hmem
  · rcases main sid payload hmem with ⟨hsome, _⟩
    rw [hnone] at hsome
    exact Option.noConfusion hsome
  · rcases main sid payload hmem with ⟨hsome, hge⟩
    rw [hr] at hsome
    rcases Option.some.inj hsome with rfl
    omega

/-- C8: on an active session, a successful `read_errors` with an empty
list is logged as informational "No ECU Errors found" (not as an error),
and after the update `can_clear_codes` holds exactly when `read_errors`
returned a nonempty successful list. -/
theorem readCodes_empty_ok (st : KWP2000DiagSession) (env : Env)
    (server : KWP2000ECU) (h : st.diag_server = some server) :
    (server.read_errors = KwpResult.ok [] →
      (LogType.info, "No ECU Errors found") ∈ (update st env .ReadCodes).1.logview) ∧
    ((update st env .ReadCodes).1.can_clear_codes = true ↔
      ∃ errs, server.read_errors = KwpResult.ok errs ∧ errs ≠ []) := by
  constructor
  · intro he
    simp [update, h, he, addMsg]
  · rcases hre : server.read_errors with errs | e
    · rcases errs with _ | ⟨x, xs⟩
      · simp [update, h, hre]
      · simp [update, h, hre]
    · simp [update, h, hre]

/-- Witness for C8: the live fixture server returns an empty DTC list; the
update logs "No ECU Errors found" as info and leaves `can_clear_codes`
false. -/
theorem readCodes_empty_ok_witness :
    (LogType.info, "No ECU Errors found") ∈
      (update sessionActive envOk .ReadCodes).1.logview ∧
    ((update sessionActive envOk .ReadCodes).1.can_clear_codes = true ↔
      ∃ errs, ecuLive.read_errors = KwpResult.ok errs ∧ errs ≠ []) := by
  have h := readCodes_empty_ok sessionActive envOk ecuLive rfl
  exact ⟨h.1 rfl, h.2⟩

/-- C9: the session subscribes to a 250 ms periodic poll exactly while a
diagnostic server exists, and to nothing otherwise. -/
theorem subscription_iff_server (st : KWP2000DiagSession) :
    (st.diag_server.isSome = true → subscription st = Sub.every 250) ∧
    (st.diag_server = none → subscription st = Sub.none) := by
  constructor
  · intro h
    simp [subscription, h]
  · intro h
    simp [subscription, h]

/-- Witness for C9: an active session polls every 250 ms; the initial
session has no subscription. -/
theorem subscription_iff_server_witness :
    subscription sessionActive = Sub.every 250 ∧
    subscription initSession = Sub.none :=
  ⟨(subscription_iff_server sessionActive).1 rfl,
   (subscription_iff_server initSession).2 rfl⟩

/-- C10: `ClearErrors` touches only the log view: `diag_server`,
`can_clear_codes`, `payload_string`, `can_send` and the home flag all keep
their values whether `clear_errors` succeeds or fails. -/
theorem clearErrors_frame (st : KWP2000DiagSession) (env : Env) :
    (update st env .ClearErrors).1.diag_server = st.diag_server ∧
    (update st env .ClearErrors).1.can_clear_codes = st.can_clear_codes ∧
    (update st env .ClearErrors).1.payload_string = st.payload_string ∧
    (update st env .ClearErrors).1.can_send = st.can_send ∧
    (update st env .ClearErrors).1.home_enabled = st.home_enabled := by
  cases h : st.diag_server with
  | none => simp [update, h]
  | some s => cases hc : s.clear_errors <;> simp [update, h, hc]

end OpenVehicleDiag
